import Mathlib

/-!
Shallow embedding of `src/main.cpp` (a toy notification system combining the
Observer, Factory and Singleton patterns).

Modelling choices:
* The only side effect in the program is writing lines to standard output.
  Each observable action (a `send` on a notification object, an `update` on a
  subscriber, the invalid-type diagnostic) is recorded as an `Event`; the
  exact text printed for an event is given by `Event.render`.
* `std::map<std::string, std::vector<Subscriber*>> subscribers` is embedded as
  an association list `List (String × List Subscriber)` without duplicate
  keys.  Key iteration order of the `std::map` is never observed by the
  program (only per-key lookup and per-channel vector order are), so list
  position of keys is irrelevant; `mapIndex` mirrors `operator[]`
  (insert-if-absent), `findSubs` mirrors `find`.
* The static singleton pointer is embedded as an `Option Nat` (the address of
  the allocated instance, `none` for the initial null pointer); `new` is
  modelled by consuming an explicitly supplied fresh address.
-/

/-- `User` subscriber variant: records a name (src/main.cpp lines 14–23). -/
structure User where
  name : String
deriving DecidableEq

/-- The only `Subscriber` variant in the program is `User`. -/
abbrev Subscriber := User

/-- Text printed by `User::update` (src/main.cpp line 21). -/
def User.update (u : User) (message : String) : String :=
  u.name ++ " received notification: " ++ message

/-- The three `Notification` variants: `EmailNotification`, `SMSNotification`,
`PushNotification` (src/main.cpp lines 32–51). -/
inductive Notification
| email
| sms
| push
deriving DecidableEq

/-- Text printed by each variant's `send` (src/main.cpp lines 34–50). -/
def Notification.send : Notification → String → String
| .email, message => "Sending Email: " ++ message
| .sms, message => "Sending SMS: " ++ message
| .push, message => "Sending Push Notification: " ++ message

namespace NotificationFactory

/-- `NotificationFactory::createNotification` (src/main.cpp lines 55–65):
maps a channel name to a notification variant, `none` for the null pointer.
It is a pure Lean function: no state, no side effects, exactly as in the
source (the C++ function only constructs and returns). -/
def createNotification (type : String) : Option Notification :=
  if type = "email" then some Notification.email
  else if type = "sms" then some Notification.sms
  else if type = "push" then some Notification.push
  else none

end NotificationFactory

/-- One observable output action of the program. -/
inductive Event
| send (n : Notification) (message : String)
| update (s : Subscriber) (message : String)
| invalid (channel : String)
deriving DecidableEq

/-- The exact line of text printed for an event (src/main.cpp lines 21, 35,
42, 49, 102). -/
def Event.render : Event → String
| .send n message => n.send message
| .update s message => s.update message
| .invalid channel => "Invalid notification type: " ++ channel

/-- The manager's channel registry: association list from channel name to the
ordered vector of subscriber references. -/
abbrev Registry := List (String × List Subscriber)

/-- `subscribers.find(k)` on the registry: the subscriber vector stored under
key `k`, if the key is present. -/
def findSubs : Registry → String → Option (List Subscriber)
| [], _ => none
| (k, v) :: rest, key => if k = key then some v else findSubs rest key

/-- `std::map::operator[]`: returns the registry (with an empty entry inserted
if the key was absent) together with the vector stored at the key. -/
def mapIndex : Registry → String → Registry × List Subscriber
| [], key => ([(key, [])], [])
| (k, v) :: rest, key =>
  if k = key then ((k, v) :: rest, v)
  else
    let p := mapIndex rest key
    ((k, v) :: p.1, p.2)

/-- `subscribers[notificationType].push_back(subscriber)` (src/main.cpp
line 85): append to the vector at the key, creating the entry if absent. -/
def addSub : Registry → String → Subscriber → Registry
| [], key, s => [(key, [s])]
| (k, v) :: rest, key, s =>
  if k = key then (k, v ++ [s]) :: rest
  else (k, v) :: addSub rest key s

/-- `NotificationManager` (src/main.cpp lines 69–105): owns the channel
registry. -/
structure NotificationManager where
  subscribers : Registry
deriving DecidableEq

/-- `NotificationManager::subscribe` (src/main.cpp lines 84–86). -/
def NotificationManager.subscribe (m : NotificationManager)
    (notificationType : String) (subscriber : Subscriber) : NotificationManager :=
  ⟨addSub m.subscribers notificationType subscriber⟩

/-- `NotificationManager::notifySubscribers` (src/main.cpp lines 88–94):
if `find` succeeds, iterate `subscribers[notificationType]` (the guarded
`operator[]`, hence `mapIndex`) calling `update` on each subscriber; else do
nothing.  Returns the possibly-updated manager and the emitted events. -/
def NotificationManager.notifySubscribers (m : NotificationManager)
    (notificationType message : String) : NotificationManager × List Event :=
  if (findSubs m.subscribers notificationType).isSome then
    let p := mapIndex m.subscribers notificationType
    (⟨p.1⟩, p.2.map fun s => Event.update s message)
  else (m, [])

/-- `NotificationManager::sendNotification` (src/main.cpp lines 96–104):
create via the factory; if non-null, `send` then fan out to subscribers;
otherwise print the diagnostic. -/
def NotificationManager.sendNotification (m : NotificationManager)
    (notificationType message : String) : NotificationManager × List Event :=
  match NotificationFactory.createNotification notificationType with
  | some notification =>
    let p := m.notifySubscribers notificationType message
    (p.1, Event.send notification message :: p.2)
  | none => (m, [Event.invalid notificationType])

/-- `NotificationManager::getInstance` (src/main.cpp lines 77–82) acting on
the static pointer `instance` (line 108, initially null = `none`): allocate
lazily on first call (`fresh` is the address `new` would return), then always
return the stored address. -/
def NotificationManager.getInstance (inst : Option Nat) (fresh : Nat) :
    Option Nat × Nat :=
  match inst with
  | none => (some fresh, fresh)
  | some a => (some a, a)

/-- Run a sequence of `getInstance` calls from a pointer state, feeding each
call its would-be fresh address; returns the final state and the addresses
returned by the calls in order. -/
def runGetInstance : Option Nat → List Nat → Option Nat × List Nat
| st, [] => (st, [])
| st, f :: fs =>
  let p := NotificationManager.getInstance st f
  let q := runGetInstance p.1 fs
  (q.1, p.2 :: q.2)

/-- The subscriber vector registered for a channel (empty when the channel is
absent from the registry). -/
def subscribersOf (m : NotificationManager) (channel : String) : List Subscriber :=
  (findSubs m.subscribers channel).getD []

/-- Registry invariant: every key present in the registry maps to a non-empty
subscriber vector. -/
def RegistryWf (m : NotificationManager) : Prop :=
  ∀ p ∈ m.subscribers, p.2 ≠ []

instance : DecidablePred RegistryWf := fun m =>
  inferInstanceAs (Decidable (∀ p ∈ m.subscribers, p.2 ≠ []))

/-- The manager state built by the subscription phase of `main`
(src/main.cpp lines 120–123). -/
def mainManager : NotificationManager :=
  ((((⟨[]⟩ : NotificationManager).subscribe "email" ⟨"Alice"⟩).subscribe
      "sms" ⟨"Bob"⟩).subscribe "push" ⟨"Alice"⟩).subscribe "push" ⟨"Bob"⟩

/-! ## Helper lemmas -/

lemma mapIndex_of_find (r : Registry) (key : String)
    (h : (findSubs r key).isSome) :
    mapIndex r key = (r, (findSubs r key).getD []) := by
  induction r with
  | nil => simp [findSubs] at h
  | cons hd tl ih =>
    obtain ⟨k, v⟩ := hd
    by_cases hk : k = key
    · simp [mapIndex, findSubs, hk]
    · simp only [findSubs, hk, if_false] at h
      simp [mapIndex, findSubs, hk, ih h]

lemma notifySubscribers_fst (m : NotificationManager) (channel message : String) :
    (m.notifySubscribers channel message).1 = m := by
  unfold NotificationManager.notifySubscribers
  by_cases h : (findSubs m.subscribers channel).isSome
  · simp [h, mapIndex_of_find _ _ h]
  · simp [h]

lemma notifySubscribers_snd (m : NotificationManager) (channel message : String) :
    (m.notifySubscribers channel message).2 =
      (subscribersOf m channel).map fun s => Event.update s message := by
  unfold NotificationManager.notifySubscribers subscribersOf
  by_cases h : (findSubs m.subscribers channel).isSome
  · simp [h, mapIndex_of_find _ _ h]
  · simp only [Option.not_isSome_iff_eq_none] at h
    simp [h]

lemma findSubs_addSub_self (r : Registry) (key : String) (s : Subscriber) :
    findSubs (addSub r key s) key = some ((findSubs r key).getD [] ++ [s]) := by
  induction r with
  | nil => simp [addSub, findSubs]
  | cons hd tl ih =>
    obtain ⟨k, v⟩ := hd
    by_cases hk : k = key
    · simp [addSub, findSubs, hk]
    · simp [addSub, findSubs, hk, ih]

lemma addSub_wf (r : Registry) (key : String) (s : Subscriber)
    (h : ∀ p ∈ r, p.2 ≠ []) : ∀ p ∈ addSub r key s, p.2 ≠ [] := by
  induction r with
  | nil =>
    intro p hp
    simp only [addSub, List.mem_singleton] at hp
    subst hp
    simp
  | cons hd tl ih =>
    obtain ⟨k, v⟩ := hd
    intro p hp
    by_cases hk : k = key
    · simp only [addSub, if_pos hk] at hp
      rcases List.mem_cons.mp hp with h1 | h1
      · subst h1; simp
      · exact h p (List.mem_cons_of_mem _ h1)
    · simp only [addSub, if_neg hk] at hp
      rcases List.mem_cons.mp hp with h1 | h1
      · subst h1; exact h (k, v) (List.mem_cons_self _ _)
      · exact ih (fun q hq => h q (List.mem_cons_of_mem _ hq)) p h1

lemma sendNotification_some (m : NotificationManager)
    (channel message : String) (n : Notification)
    (h : NotificationFactory.createNotification channel = some n) :
    m.sendNotification channel message =
      ((m.notifySubscribers channel message).1,
        Event.send n message :: (m.notifySubscribers channel message).2) := by
  simp [NotificationManager.sendNotification, h]

lemma sendNotification_none (m : NotificationManager)
    (channel message : String)
    (h : NotificationFactory.createNotification channel = none) :
    m.sendNotification channel message = (m, [Event.invalid channel]) := by
  simp [NotificationManager.sendNotification, h]

lemma createNotification_eq_none (channel : String)
    (h1 : channel ≠ "email") (h2 : channel ≠ "sms") (h3 : channel ≠ "push") :
    NotificationFactory.createNotification channel = none := by
  simp [NotificationFactory.createNotification, h1, h2, h3]

lemma sendNotification_fst (m : NotificationManager) (channel message : String) :
    (m.sendNotification channel message).1 = m := by
  cases hc : NotificationFactory.createNotification channel with
  | none => simp [sendNotification_none m channel message hc]
  | some n =>
    simp [sendNotification_some m channel message n hc, notifySubscribers_fst]

lemma runGetInstance_some (a : Nat) (fs : List Nat) :
    runGetInstance (some a) fs = (some a, fs.map fun _ => a) := by
  induction fs with
  | nil => rfl
  | cons f fs ih => simp [runGetInstance, NotificationManager.getInstance, ih]

/-! ## Claim theorems -/

/-- C1: for every channel in {"email","sms","push"} and every message,
`sendNotification` emits exactly one `send` event on a notification of the
variant matching the channel, followed by exactly one `update` event per
subscriber registered on that channel, in registration order. -/
theorem sendNotification_valid_events (m : NotificationManager)
    (channel message : String)
    (h : channel = "email" ∨ channel = "sms" ∨ channel = "push") :
    ∃ n, NotificationFactory.createNotification channel = some n ∧
      (m.sendNotification channel message).2 =
        Event.send n message ::
          (subscribersOf m channel).map fun s => Event.update s message := by
  have hn : ∃ n, NotificationFactory.createNotification channel = some n := by
    rcases h with h | h | h <;> subst h <;> exact ⟨_, rfl⟩
  obtain ⟨n, hn⟩ := hn
  refine ⟨n, hn, ?_⟩
  rw [sendNotification_some m channel message n hn]
  simp [notifySubscribers_snd]

theorem sendNotification_valid_events_witness :
    ("push" = "email" ∨ "push" = "sms" ∨ "push" = "push") ∧
      ∃ n, NotificationFactory.createNotification "push" = some n ∧
        (mainManager.sendNotification "push" "hi").2 =
          Event.send n "hi" ::
            (subscribersOf mainManager "push").map fun s => Event.update s "hi" :=
  ⟨by decide, sendNotification_valid_events mainManager "push" "hi" (by decide)⟩

/-- C2: for every channel not in {"email","sms","push"} and every message,
`sendNotification` emits exactly the diagnostic event, rendered as
"Invalid notification type: <channel>", and no `update` event — even when
subscribers are registered under that channel name (`m` is arbitrary). -/
theorem sendNotification_invalid_events (m : NotificationManager)
    (channel message : String)
    (h : channel ≠ "email" ∧ channel ≠ "sms" ∧ channel ≠ "push") :
    (m.sendNotification channel message).2 = [Event.invalid channel] ∧
      Event.render (Event.invalid channel) =
        "Invalid notification type: " ++ channel ∧
      ∀ s msg, Event.update s msg ∉ (m.sendNotification channel message).2 := by
  have hc := createNotification_eq_none channel h.1 h.2.1 h.2.2
  rw [sendNotification_none m channel message hc]
  refine ⟨rfl, rfl, ?_⟩
  intro s msg
  simp

theorem sendNotification_invalid_events_witness :
    ("fax" ≠ "email" ∧ "fax" ≠ "sms" ∧ "fax" ≠ "push") ∧
      ((⟨[("fax", [⟨"Carol"⟩])]⟩ :
          NotificationManager).sendNotification "fax" "hi").2 =
        [Event.invalid "fax"] :=
  ⟨by decide,
    (sendNotification_invalid_events ⟨[("fax", [⟨"Carol"⟩])]⟩ "fax" "hi"
      (by decide)).1⟩

/-- C3: the factory maps "email"/"sms"/"push" to the matching variant and
every other string to `none`; as defined, `createNotification` is a pure
function of its argument with no state. -/
theorem createNotification_spec :
    NotificationFactory.createNotification "email" = some Notification.email ∧
    NotificationFactory.createNotification "sms" = some Notification.sms ∧
    NotificationFactory.createNotification "push" = some Notification.push ∧
    ∀ t : String, t ≠ "email" → t ≠ "sms" → t ≠ "push" →
      NotificationFactory.createNotification t = none := by
  refine ⟨rfl, rfl, rfl, ?_⟩
  intro t h1 h2 h3
  exact createNotification_eq_none t h1 h2 h3

theorem createNotification_spec_witness :
    NotificationFactory.createNotification "email" = some Notification.email ∧
      NotificationFactory.createNotification "fax" = none :=
  ⟨createNotification_spec.1,
    createNotification_spec.2.2.2 "fax" (by decide) (by decide) (by decide)⟩

/-- C4: `subscribe` appends the subscriber at the end of the channel's
vector, creating the entry (as the singleton vector) if the channel was
absent; duplicates are kept, so after subscribing the same subscriber twice,
a notification on that channel yields two `update` events for it. -/
theorem subscribe_appends (m : NotificationManager)
    (channel message : String) (s : Subscriber) :
    subscribersOf (m.subscribe channel s) channel =
        subscribersOf m channel ++ [s] ∧
      (findSubs m.subscribers channel = none →
        findSubs ((m.subscribe channel s).subscribers) channel = some [s]) ∧
      (((m.subscribe channel s).subscribe channel s).notifySubscribers
          channel message).2 =
        (subscribersOf m channel ++ [s, s]).map fun t =>
          Event.update t message := by
  have h1 : subscribersOf (m.subscribe channel s) channel =
      subscribersOf m channel ++ [s] := by
    simp [subscribersOf, NotificationManager.subscribe, findSubs_addSub_self]
  refine ⟨h1, ?_, ?_⟩
  · intro h
    simp [NotificationManager.subscribe, findSubs_addSub_self, h]
  · rw [notifySubscribers_snd]
    have h2 : subscribersOf ((m.subscribe channel s).subscribe channel s)
        channel = subscribersOf m channel ++ [s, s] := by
      simp only [NotificationManager.subscribe] at h1 ⊢
      simp [subscribersOf, findSubs_addSub_self] at h1 ⊢
    rw [h2]

theorem subscribe_appends_witness :
    subscribersOf (mainManager.subscribe "email" ⟨"Bob"⟩) "email" =
        subscribersOf mainManager "email" ++ [⟨"Bob"⟩] ∧
      (findSubs mainManager.subscribers "fax" = none →
        findSubs ((mainManager.subscribe "fax" ⟨"Bob"⟩).subscribers) "fax" =
          some [⟨"Bob"⟩]) ∧
      findSubs mainManager.subscribers "fax" = none :=
  ⟨(subscribe_appends mainManager "email" "hi" ⟨"Bob"⟩).1,
    (subscribe_appends mainManager "fax" "hi" ⟨"Bob"⟩).2.1, by decide⟩

/-- C5: `notifySubscribers` emits one `update` event per registered
subscriber in insertion order when the channel is present, and when the
channel is absent it is a no-op: the manager is unchanged and no event is
emitted. -/
theorem notifySubscribers_spec (m : NotificationManager)
    (channel message : String) :
    (∀ l, findSubs m.subscribers channel = some l →
        (m.notifySubscribers channel message).2 =
          l.map fun s => Event.update s message) ∧
      (findSubs m.subscribers channel = none →
        m.notifySubscribers channel message = (m, [])) := by
  constructor
  · intro l hl
    rw [notifySubscribers_snd]
    simp [subscribersOf, hl]
  · intro h
    unfold NotificationManager.notifySubscribers
    simp [h]

theorem notifySubscribers_spec_witness :
    findSubs mainManager.subscribers "push" = some [⟨"Alice"⟩, ⟨"Bob"⟩] ∧
      (mainManager.notifySubscribers "push" "hi").2 =
        [Event.update ⟨"Alice"⟩ "hi", Event.update ⟨"Bob"⟩ "hi"] ∧
      mainManager.notifySubscribers "fax" "hi" = (mainManager, []) :=
  ⟨by decide,
    (notifySubscribers_spec mainManager "push" "hi").1 [⟨"Alice"⟩, ⟨"Bob"⟩]
      (by decide),
    (notifySubscribers_spec mainManager "fax" "hi").2 (by decide)⟩

/-- C6: on a valid send, the printed output is exactly one channel-tagged
line — "Sending Email: <message>", "Sending SMS: <message>" or
"Sending Push Notification: <message>" according to the channel — followed by
one line "<subscriberName> received notification: <message>" per registered
subscriber for that channel, in registration order. -/
theorem sendNotification_output_lines (m : NotificationManager)
    (channel message : String) (n : Notification)
    (h : NotificationFactory.createNotification channel = some n) :
    ((m.sendNotification channel message).2).map Event.render =
        n.send message ::
          (subscribersOf m channel).map
            (fun s => s.name ++ " received notification: " ++ message) ∧
      (n.send message = "Sending Email: " ++ message ∨
        n.send message = "Sending SMS: " ++ message ∨
        n.send message = "Sending Push Notification: " ++ message) := by
  constructor
  · rw [sendNotification_some m channel message n h]
    simp [notifySubscribers_snd, Event.render, User.update, Function.comp]
  · cases n <;> simp [Notification.send]

theorem sendNotification_output_lines_witness :
    NotificationFactory.createNotification "sms" = some Notification.sms ∧
      ((mainManager.sendNotification "sms" "hi").2).map Event.render =
        Notification.send Notification.sms "hi" ::
          (subscribersOf mainManager "sms").map
            (fun s => s.name ++ " received notification: " ++ "hi") :=
  ⟨by decide,
    (sendNotification_output_lines mainManager "sms" "hi" Notification.sms
      (by decide)).1⟩

/-- C7: starting from the null static pointer, a sequence of `getInstance`
calls allocates exactly once — lazily, at the first call — and every call
returns that same first-allocated instance, the pointer state remaining that
instance throughout. -/
theorem getInstance_singleton (f : Nat) (fs : List Nat) :
    runGetInstance none (f :: fs) = (some f, f :: fs.map fun _ => f) := by
  simp [runGetInstance, NotificationManager.getInstance, runGetInstance_some]

/-- C8: with Alice subscribed to "email", Bob to "sms" and both to "push"
(the state `main` builds), sending "Your order has been placed." on "email"
prints exactly the two expected lines. -/
theorem main_email_scenario :
    ((mainManager.sendNotification "email"
          "Your order has been placed.").2).map Event.render =
      ["Sending Email: Your order has been placed.",
        "Alice received notification: Your order has been placed."] := by
  decide

/-- C9: neither `notifySubscribers` nor `sendNotification` modifies the
registry, for every channel name (recognized or not, present or not) and
message: the manager component of the result equals the input manager, so in
particular no empty entry is inserted for an absent channel. -/
theorem registry_frame (m : NotificationManager) (channel message : String) :
    (m.notifySubscribers channel message).1 = m ∧
      (m.sendNotification channel message).1 = m :=
  ⟨notifySubscribers_fst m channel message,
    sendNotification_fst m channel message⟩

/-- C10: if every channel present in the registry maps to a non-empty
subscriber vector, the invariant is preserved by `subscribe` (which appends
to the entry it creates or finds), `notifySubscribers` and
`sendNotification`. -/
theorem registry_nonempty_invariant (m : NotificationManager)
    (channel message : String) (s : Subscriber) (h : RegistryWf m) :
    RegistryWf (m.subscribe channel s) ∧
      RegistryWf (m.notifySubscribers channel message).1 ∧
      RegistryWf (m.sendNotification channel message).1 := by
  refine ⟨addSub_wf m.subscribers channel s h, ?_, ?_⟩
  · rw [notifySubscribers_fst]; exact h
  · rw [sendNotification_fst]; exact h

theorem registry_nonempty_invariant_witness :
    RegistryWf mainManager ∧
      (RegistryWf (mainManager.subscribe "push" ⟨"Carol"⟩) ∧
        RegistryWf (mainManager.notifySubscribers "push" "hi").1 ∧
        RegistryWf (mainManager.sendNotification "push" "hi").1) :=
  ⟨by decide,
    registry_nonempty_invariant mainManager "push" "hi" ⟨"Carol"⟩ (by decide)⟩
